import Mathlib

/-!
Verification of moonrailgun/github-repository-card.

The development shallowly embeds the TypeScript sources
`src/utils/common.ts`, `src/utils/fetchers.ts` and the API-route handler.
JavaScript strings are modelled as `List Char`, JavaScript numbers that the
code feeds through `parseInt` as `Option Int` (`none` standing for `NaN` /
an absent value), and thrown exceptions as an explicit error type.
-/

abbrev Str := List Char

/-- JavaScript `\s` character class (WhiteSpace plus LineTerminator);
this is also exactly the set removed by `String.prototype.trim`. -/
def jsWsChar (c : Char) : Bool :=
  c == ' ' || c == '\t' || c == '\n' || c.toNat == 0x0B || c.toNat == 0x0C ||
  c == '\r' || c.toNat == 0xA0 || c.toNat == 0x1680 ||
  (0x2000 ≤ c.toNat && c.toNat ≤ 0x200A) ||
  c.toNat == 0x2028 || c.toNat == 0x2029 || c.toNat == 0x202F ||
  c.toNat == 0x205F || c.toNat == 0x3000 || c.toNat == 0xFEFF

/-- The character class `[\s​]` used by the `word-wrap` package. -/
def clsWs (c : Char) : Bool := jsWsChar c || c.toNat == 0x200B

/-- What the regex metacharacter `.` matches without the `s` flag:
anything but a line terminator. -/
def dotCh (c : Char) : Bool :=
  !(c == '\n' || c == '\r' || c.toNat == 0x2028 || c.toNat == 0x2029)

/-- Length of the maximal prefix of `s` whose characters satisfy `p`. -/
def runLen (p : Char → Bool) : Str → Nat
  | [] => 0
  | c :: rest => if p c then runLen p rest + 1 else 0

/-- JavaScript `String.prototype.trim`. -/
def jsTrim (l : Str) : Str :=
  ((l.dropWhile jsWsChar).reverse.dropWhile jsWsChar).reverse

/-- Join a list of strings with a separator (JavaScript `Array.join`). -/
def joinSep (sep : Str) : List Str → Str
  | [] => []
  | [x] => x
  | x :: y :: xs => x ++ sep ++ joinSep sep (y :: xs)

/-- JavaScript `String.prototype.split` with a single-character separator. -/
def jsSplit (sep : Char) : Str → List Str
  | [] => [[]]
  | c :: rest =>
    if c = sep then [] :: jsSplit sep rest
    else
      match jsSplit sep rest with
      | [] => [[c]]
      | l :: ls => (c :: l) :: ls

/-- Does `pre` occur as a prefix of `s`? -/
def strHasPrefix : Str → Str → Bool
  | [], _ => true
  | _ :: _, [] => false
  | p :: ps, c :: cs => p == c && strHasPrefix ps cs

/-- Does `sub` occur as a contiguous substring of `s`
(JavaScript `String.prototype.includes`)? -/
def strHasSubstr (sub : Str) : Str → Bool
  | [] => strHasPrefix sub []
  | c :: rest => strHasPrefix sub (c :: rest) || strHasSubstr sub rest

/-- JavaScript `String.prototype.split` with a (non-empty) multi-character
separator string; the first argument is recursion fuel. -/
def jsSplitSubGo (sep : Str) : Nat → Str → List Str
  | 0, s => [s]
  | fuel + 1, s =>
    if strHasPrefix sep s then [] :: jsSplitSubGo sep fuel (s.drop sep.length)
    else
      match s with
      | [] => [[]]
      | c :: rest =>
        match jsSplitSubGo sep fuel rest with
        | [] => [[c]]
        | l :: ls => (c :: l) :: ls

/-- JavaScript `String.prototype.split` on a separator string. -/
def jsSplitSub (sep : Str) (s : Str) : List Str :=
  jsSplitSubGo sep (s.length + 1) s

/-- The character class `[ -香<>&]` of `encodeHTML` in
`src/utils/common.ts`. -/
def inEncClass (c : Char) : Bool :=
  (0xA0 ≤ c.toNat && c.toNat ≤ 0x9999) || c == '<' || c == '>' || c == '&'

/-- One pass of the global replace
`/[ -香<>&](?!#)/gim → '&#' + charCode + ';'`:
a matching character is replaced by its decimal entity unless the next
character of the input is `#`. -/
def encodeHTMLAux : Str → Str
  | [] => []
  | c :: rest =>
    if inEncClass c && !(rest.head? == some '#') then
      '&' :: '#' :: (Nat.repr c.toNat ++ ";").data ++ encodeHTMLAux rest
    else
      c :: encodeHTMLAux rest

/-- `encodeHTML` from `src/utils/common.ts`: entity-encode the class
`[ -香<>&]` (with a `(?!#)` lookahead) and strip `\u0008`. -/
def encodeHTML (s : Str) : Str :=
  (encodeHTMLAux s).filter (fun c => c ≠ '\x08')

/-!
The `word-wrap` npm package (as called by `wrapTextMultiline` with only
`width` set) matches the global regex
`.{1,width}([\s​]+|$)|[^\s​]+?([\s​]+|$)` against the input and joins the
matches with indent `"  "` and newline `"\n  "`.
-/

/-- Backtracking of the greedy `.{1,w}` quantifier followed by the group
`([\s​]+|$)`: try a match of `k` dot-characters first, then shorter ones.
Returns the total matched length (including the whitespace run). -/
def tryAlt1 (s : Str) : Nat → Option Nat
  | 0 => none
  | k + 1 =>
    match s.drop (k + 1) with
    | [] => some (k + 1)
    | c :: rest =>
      if clsWs c then some (k + 1 + (runLen clsWs rest + 1))
      else tryAlt1 s k

/-- First alternative `.{1,w}([\s​]+|$)` at the start of `s`. -/
def matchAlt1 (s : Str) (w : Nat) : Option Nat :=
  tryAlt1 s (min w (runLen dotCh s))

/-- Second alternative `[^\s​]+?([\s​]+|$)` at the start of `s`: the lazy
quantifier only succeeds after consuming the whole maximal non-whitespace
run. -/
def matchAlt2 (s : Str) : Option Nat :=
  match runLen (fun c => !clsWs c) s with
  | 0 => none
  | n + 1 => some (n + 1 + runLen clsWs (s.drop (n + 1)))

/-- One regex match attempt at the start of `s` (alternation order of the
pattern). -/
def matchAt (s : Str) (w : Nat) : Option Nat :=
  match matchAlt1 s w with
  | some l => some l
  | none => matchAlt2 s

/-- All matches of the global regex over `s`, advancing one position on
failure (the behaviour of `String.prototype.match` with the `g` flag).
The first argument is recursion fuel; every successful match consumes at
least one character. -/
def regexMatchesAux (w : Nat) : Nat → Str → List Str
  | 0, _ => []
  | _ + 1, [] => []
  | fuel + 1, c :: rest =>
    match matchAt (c :: rest) w with
    | some l => (c :: rest).take l :: regexMatchesAux w fuel ((c :: rest).drop l)
    | none => regexMatchesAux w fuel rest

def regexMatches (s : Str) (w : Nat) : List Str :=
  regexMatchesAux w s.length s

/-- `word-wrap` drops a single trailing `\n` from each match before
joining. -/
def dropTrailingNL (l : Str) : Str :=
  if l.getLast? = some '\n' then l.dropLast else l

/-- `wrap(str, { width })` from the `word-wrap` package: indent `"  "`,
newline `"\n  "`, no `cut`, no `trim`, identity `escape`. -/
def wordWrap (s : Str) (w : Nat) : Str :=
  ' ' :: ' ' :: joinSep ('\n' :: ' ' :: ' ' :: [])
    ((regexMatches s w).map dropTrailingNL)

/-- The constant `fullWidthComma` of `wrapTextMultiline`.  In the source
file the literal is the three-character sequence U+00EF U+00BC U+0152
(a mojibake rendering of the full-width comma), embedded here verbatim. -/
def fullWidthComma : Str := "ï¼Œ".data

/-- The intermediate `wrapped` list of `wrapTextMultiline`: either the
split on `fullWidthComma` or the `word-wrap` output split on `'\n'`. -/
def wrappedLinesOf (text : Str) (width : Nat) : List Str :=
  let encoded := encodeHTML text
  if strHasSubstr fullWidthComma encoded then
    jsSplitSub fullWidthComma encoded
  else
    jsSplit '\n' (wordWrap encoded width)

/-- `wrapTextMultiline` from `src/utils/common.ts`. -/
def wrapTextMultiline (text : Str) (width maxLines : Nat) : List Str :=
  let wrapped := wrappedLinesOf text width
  let lines := (wrapped.map jsTrim).take maxLines
  let lines2 :=
    if maxLines < wrapped.length then
      lines.set (maxLines - 1) (lines.getD (maxLines - 1) [] ++ "...".data)
    else lines
  lines2.filter (fun l => !l.isEmpty)

/-!  `clampValue`, `CONSTANTS` and the cache-seconds computation of the
API-route handler.  A `Option Int` argument models a JavaScript number
fed through `parseInt`: `none` is `NaN` (or an absent query value). -/

/-- `clampValue` from `src/utils/common.ts`: `NaN` clamps to `min`,
otherwise `Math.max(min, Math.min(number, max))`. -/
def clampValue (number : Option Int) (min max : Int) : Int :=
  match number with
  | none => min
  | some n => Max.max min (Min.min n max)

def CONSTANTS_FOUR_HOURS : Int := 14400
def CONSTANTS_ONE_DAY : Int := 86400

/-- The `cacheSeconds` computed by the handler: the parsed `cache_seconds`
query value (defaulting to `FOUR_HOURS` when absent) clamped to
`[FOUR_HOURS, ONE_DAY]`, then overridden by `parseInt(CACHE_SECONDS) ||
cacheSeconds` when the environment variable is set (`none` models an
unset or unparsable variable, `some 0` is falsy and keeps the clamp). -/
def computeCacheSeconds (cache_seconds : Option Int) (envCache : Option Int) : Int :=
  let base := clampValue (some ((cache_seconds).getD CONSTANTS_FOUR_HOURS))
      CONSTANTS_FOUR_HOURS CONSTANTS_ONE_DAY
  match envCache with
  | some e => if e = 0 then base else e
  | none => base

/-- Decimal rendering of the JavaScript number `c / 2` for an integer `c`:
an exact integer when `c` is even, otherwise a trailing `.5` (JavaScript
division is exact on these values). -/
def jsHalfRepr (c : Int) : Str :=
  if c % 2 = 0 then (toString (c / 2)).data
  else if c < 0 then '-' :: (Nat.repr (c.natAbs / 2) ++ ".5").data
  else (Nat.repr (c.natAbs / 2) ++ ".5").data

/-- The success-path `Cache-Control` header value emitted by the handler:
`max-age=<cacheSeconds / 2>, s-maxage=<cacheSeconds>,
stale-while-revalidate=<ONE_DAY>`. -/
def successCacheControl (cacheSeconds : Int) : Str :=
  "max-age=".data ++ jsHalfRepr cacheSeconds ++
  ", s-maxage=".data ++ (toString cacheSeconds).data ++
  ", stale-while-revalidate=".data ++ (toString CONSTANTS_ONE_DAY).data

/-- The success-path `Cache-Control` header as a function of the request's
`cache_seconds` value and the `CACHE_SECONDS` environment variable. -/
def handlerSuccessCacheControl (cache_seconds envCache : Option Int) : Str :=
  successCacheControl (computeCacheSeconds cache_seconds envCache)

/-!  Error classes of `src/utils/common.ts` and the error classification
of `fetchStats`. -/

/-- The `SECONDARY_ERROR_MESSAGES` lookup table. -/
def SECONDARY_ERROR_MESSAGES (t : Str) : Option Str :=
  if t = "MAX_RETRY".data then
    some "Please add an env variable called PAT_1 with your github token in vercel".data
  else if t = "USER_NOT_FOUND".data then
    some "Make sure the provided username is not an organization".data
  else if t = "GRAPHQL_ERROR".data then
    some "Please try again later".data
  else if t = "WAKATIME_USER_NOT_FOUND".data then
    some "Make sure you have a public WakaTime profile".data
  else none

/-- `CustomError`'s constructor: `SECONDARY_ERROR_MESSAGES[type] || type`
(every table entry is a non-empty, hence truthy, string). -/
def customSecondary (t : Str) : Str :=
  (SECONDARY_ERROR_MESSAGES t).getD t

/-- The errors `fetchStats` can throw: a `CustomError` (whose
`secondaryMessage` is derived from the `type`), a `MissingParamError`
(whose optional second constructor argument is never passed by
`fetchStats`), or the `TypeError` raised by reading `errors[0].type` when
`errors` is an empty array. -/
inductive AppError where
  | custom (message : Str) (type : Str)
  | missingParam (missedParams : List Str) (secondary : Option Str)
  | typeErrorCrash (message : Str)
deriving DecidableEq

/-- The `message` property of the thrown error (for `MissingParamError`
the message built by its constructor). -/
def AppError.message : AppError → Str
  | .custom m _ => m
  | .missingParam ps _ =>
    "Missing params ".data ++
    joinSep ", ".data (ps.map (fun p => '"' :: p ++ ['"'])) ++
    " make sure you pass the parameters in URL".data
  | .typeErrorCrash m => m

/-- The `secondaryMessage` property of the thrown error (`none` models an
`undefined` property). -/
def AppError.secondaryMessage : AppError → Option Str
  | .custom _ t => some (customSecondary t)
  | .missingParam _ s => s
  | .typeErrorCrash _ => none

/-- A GraphQL error object: `type` and `message` are optional fields. -/
structure ErrObj where
  type : Option Str
  message : Option Str
deriving DecidableEq

/-- The `data` field of the axios response: a possible `errors` array and
the rest of the payload, kept abstract. -/
structure ResData (α : Type) where
  errors : Option (List ErrObj)
  payload : α
deriving DecidableEq

/-- The axios response envelope seen by `fetchStats`. -/
structure Res (α : Type) where
  data : ResData α
  statusText : Str
deriving DecidableEq

/-- JavaScript truthiness of an optional string: `undefined` and `""` are
falsy. -/
def jsTruthy (o : Option Str) : Bool :=
  match o with
  | none => false
  | some s => !s.isEmpty

/-- `a || b` on an optional string. -/
def jsOrStr (o : Option Str) (dflt : Str) : Str :=
  if jsTruthy o then o.getD [] else dflt

/-- `fetchStats` from `src/utils/fetchers.ts`, with the network response
passed explicitly: the empty-`repo` guard, then the classification of
`res.data.errors`.  A present-but-empty `errors` array is truthy in
JavaScript, so the code dereferences `errors[0]` and crashes with a
`TypeError`; `errors[0].message` selected by `wrapTextMultiline(...)[0]`
on an empty result is `undefined` and yields an empty `Error` message. -/
def fetchStats {α : Type} (repo : Str) (res : Res α) : Except AppError (Res α) :=
  if repo = [] then
    .error (.missingParam ["repo".data] none)
  else
    match res.data.errors with
    | none => .ok res
    | some errs =>
      match errs.head? with
      | none =>
        .error (.typeErrorCrash "Cannot read properties of undefined (reading 'type')".data)
      | some e0 =>
        if e0.type = some "NOT_FOUND".data then
          .error (.custom (jsOrStr e0.message "Could not fetch user.".data)
            "USER_NOT_FOUND".data)
        else if jsTruthy e0.message then
          .error (.custom ((wrapTextMultiline (e0.message.getD []) 90 1).headD [])
            res.statusText)
        else
          .error (.custom
            "Something went wrong while trying to retrieve the stats data using the GraphQL API.".data
            "GRAPHQL_ERROR".data)

/-- The GraphQL `variables` built by `statsFetcher`:
`const [owner, name] = repoFullname.split('/')` — destructuring takes the
first two elements of the full split; a missing element is `undefined`. -/
def statsFetcherVariables (repoFullname : Str) : Option Str × Option Str :=
  let parts := jsSplit '/' repoFullname
  (parts.head?, parts[1]?)

/-!  `renderError` and the two branches of the API-route handler. -/

/-- The template text of `renderError` before `${encodeHTML(message)}`
(`ERROR_CARD_LENGTH = 576.5` interpolated). -/
def renderErrorPre : Str :=
  ("\n    <svg width=\"576.5\" height=\"120\" viewBox=\"0 0 576.5 120\" fill=\"none\" xmlns=\"http://www.w3.org/2000/svg\">\n    <style>\n    .text \x7b font: 600 16px \x27Segoe UI\x27, Ubuntu, Sans-Serif; fill: #2F80ED \x7d\n    .small \x7b font: 600 12px \x27Segoe UI\x27, Ubuntu, Sans-Serif; fill: #252525 \x7d\n    .gray \x7b fill: #858585 \x7d\n    </style>\n    <rect x=\"0.5\" y=\"0.5\" width=\"575.5\" height=\"99%\" rx=\"4.5\" fill=\"#FFFEFE\" stroke=\"#E4E2E2\"/>\n    <text x=\"25\" y=\"45\" class=\"text\">Something went wrong! file an issue at moonrailgun/github-repository-card</text>\n    <text data-testid=\"message\" x=\"25\" y=\"55\" class=\"text small\">\n      <tspan x=\"25\" dy=\"18\">").data

/-- The template text between `${encodeHTML(message)}` and
`${secondaryMessage}`. -/
def renderErrorMid : Str :=
  ("</tspan>\n      <tspan x=\"25\" dy=\"18\" class=\"gray\">").data

/-- The template text after `${secondaryMessage}`. -/
def renderErrorPost : Str :=
  ("</tspan>\n    </text>\n    </svg>\n  ").data

/-- `renderError` from `src/utils/common.ts`: the fixed SVG template with
the entity-encoded primary message and the raw secondary message
interpolated. -/
def renderError (message : Str) (secondaryMessage : Str) : Str :=
  renderErrorPre ++ encodeHTML message ++ renderErrorMid ++
  secondaryMessage ++ renderErrorPost

/-- JavaScript `String(x)` on a possibly-`undefined` string. -/
def jsStringOfOpt : Option Str → Str
  | none => "undefined".data
  | some s => s

/-- The response produced by the handler, reduced to the header and body
the claims are about. -/
structure HttpResponse where
  contentType : Str
  cacheControl : Str
  body : Str
deriving DecidableEq

/-- The `catch` branch of the handler: never-cache header, then
`renderError(String(err.message), String(err.secondaryMessage))`. -/
def handlerOnError (e : AppError) : HttpResponse :=
  { contentType := "image/svg+xml".data
  , cacheControl := "no-cache, no-store, must-revalidate".data
  , body := renderError (AppError.message e)
      (jsStringOfOpt (AppError.secondaryMessage e)) }

/-- Decidable equality of `Except` results, for evaluating the model on
concrete inputs. -/
instance {ε α : Type} [DecidableEq ε] [DecidableEq α] : DecidableEq (Except ε α) := fun x y =>
  match x, y with
  | .ok a, .ok b =>
    if h : a = b then isTrue (by rw [h])
    else isFalse (by intro hc; cases hc; exact h rfl)
  | .error a, .error b =>
    if h : a = b then isTrue (by rw [h])
    else isFalse (by intro hc; cases hc; exact h rfl)
  | .ok _, .error _ => isFalse (by intro hc; cases hc)
  | .error _, .ok _ => isFalse (by intro hc; cases hc)

/-!  Helper lemmas. -/

theorem jsSplit_of_not_mem (sep : Char) (l : Str) (h : sep ∉ l) :
    jsSplit sep l = [l] := by
  induction l with
  | nil => rfl
  | cons c rest ih =>
    have hc : ¬ c = sep := fun hcs => h (hcs ▸ List.mem_cons_self c rest)
    have hr : sep ∉ rest := fun hm => h (List.mem_cons_of_mem c hm)
    simp [jsSplit, hc, ih hr]

theorem jsSplit_append_sep (sep : Char) (pre l : Str) (h : sep ∉ pre) :
    jsSplit sep (pre ++ sep :: l) = pre :: jsSplit sep l := by
  induction pre with
  | nil => simp [jsSplit]
  | cons c pre' ih =>
    have hc : ¬ c = sep := fun hcs => h (hcs ▸ List.mem_cons_self c pre')
    have hr : sep ∉ pre' := fun hm => h (List.mem_cons_of_mem c hm)
    simp [jsSplit, hc, ih hr]

/-- Setting the final element of a list to a non-empty value and filtering
out empty lists leaves that value as the last element. -/
theorem filter_set_last (l : List Str) (v : Str) (hv : v ≠ []) :
    ∀ i : Nat, i + 1 = l.length →
      ((l.set i v).filter (fun x => !x.isEmpty)).getLast? = some v := by
  induction l with
  | nil => intro i hi; simp at hi
  | cons x xs ih =>
    intro i hi
    cases i with
    | zero =>
      have hxs : xs = [] := by
        have : xs.length = 0 := by simpa using hi.symm
        simpa using this
      subst hxs
      have hvb : v.isEmpty = false := by
        cases v with
        | nil => exact absurd rfl hv
        | cons a as => rfl
      simp [List.set, List.filter, hvb]
    | succ j =>
      have hj : j + 1 = xs.length := by simpa using hi
      have hlast := ih j hj
      have hne : (xs.set j v).filter (fun x => !x.isEmpty) ≠ [] := by
        intro hnil
        rw [hnil] at hlast
        simp at hlast
      rcases List.exists_cons_of_ne_nil hne with ⟨r, rs, hr⟩
      by_cases hx : x.isEmpty
      · simpa [List.set, List.filter, hx] using hlast
      · simp only [List.set, List.filter_cons, hx]
        rw [hr] at hlast ⊢
        simpa [List.getLast?_cons_cons] using hlast

/-!  Claim theorems. -/

/-- C9: for every `min ≤ max`, `clampValue` returns `min` on a `NaN`
input and otherwise `Math.max(min, Math.min(n, max))`, which lies in the
closed interval `[min, max]`. -/
theorem clampValue_spec (mn mx : Int) (h : mn ≤ mx) :
    clampValue none mn mx = mn ∧
    ∀ n : Int, clampValue (some n) mn mx = Max.max mn (Min.min n mx) ∧
      mn ≤ clampValue (some n) mn mx ∧ clampValue (some n) mn mx ≤ mx := by
  refine ⟨rfl, fun n => ⟨rfl, le_max_left _ _, ?_⟩⟩
  exact max_le h (min_le_right _ _)

/-- Witness for C9 at `min = 0`, `max = 10`, `n = 99`. -/
theorem clampValue_spec_witness :
    (0 : Int) ≤ 10 ∧
    (clampValue (some 99) 0 10 = Max.max 0 (Min.min 99 10) ∧
      (0 : Int) ≤ clampValue (some 99) 0 10 ∧ clampValue (some 99) 0 10 ≤ 10) :=
  ⟨by decide, (clampValue_spec 0 10 (by decide)).2 99⟩

/-- C4: on success the handler clamps the requested `cache_seconds` to
`[FOUR_HOURS, ONE_DAY] = [14400, 86400]` with default `14400` (so `10`
clamps to `14400` and `100000` to `86400`), a non-zero `CACHE_SECONDS`
environment value overrides the clamped duration, and the emitted
`Cache-Control` header is
`max-age=<half>, s-maxage=<full>, stale-while-revalidate=86400`. -/
theorem handler_cache_control_success (r : Option Int) (e : Int) (he : e ≠ 0) :
    CONSTANTS_FOUR_HOURS ≤ computeCacheSeconds r none ∧
    computeCacheSeconds r none ≤ CONSTANTS_ONE_DAY ∧
    computeCacheSeconds none none = 14400 ∧
    computeCacheSeconds (some 10) none = 14400 ∧
    computeCacheSeconds (some 100000) none = 86400 ∧
    computeCacheSeconds r (some e) = e ∧
    handlerSuccessCacheControl (some 10) none =
      "max-age=7200, s-maxage=14400, stale-while-revalidate=86400".data ∧
    handlerSuccessCacheControl (some 100000) none =
      "max-age=43200, s-maxage=86400, stale-while-revalidate=86400".data ∧
    successCacheControl (computeCacheSeconds r (some e)) =
      "max-age=".data ++ jsHalfRepr e ++ ", s-maxage=".data ++
        (toString e).data ++ ", stale-while-revalidate=86400".data := by
  refine ⟨le_max_left _ _, max_le (by decide) (min_le_right _ _), by decide, by decide,
    by decide, ?_, by decide, by decide, ?_⟩
  · simp [computeCacheSeconds, he]
  · have hc : computeCacheSeconds r (some e) = e := by simp [computeCacheSeconds, he]
    rw [hc]
    simp only [successCacheControl, List.append_assoc, List.append_cancel_left_eq]
    decide

/-- Witness for C4 at `cache_seconds = 10` and `CACHE_SECONDS = 99999`. -/
theorem handler_cache_control_success_witness :
    (99999 : Int) ≠ 0 ∧ computeCacheSeconds (some 10) (some 99999) = 99999 :=
  ⟨by decide, (handler_cache_control_success (some 10) 99999 (by decide)).2.2.2.2.2.1⟩

/-- C5: for the empty identifier `fetchStats` fails with a
`MissingParamError` naming `"repo"`, independently of any network
response (the same error results for every response value, so no
outbound request can influence the outcome), and the error message is
the `MissingParamError` constructor's message. -/
theorem fetchStats_empty_repo {α : Type} (net : Res α) :
    fetchStats [] net = .error (.missingParam ["repo".data] none) ∧
    (AppError.missingParam ["repo".data] none).message =
      "Missing params \"repo\" make sure you pass the parameters in URL".data ∧
    (AppError.missingParam ["repo".data] none).secondaryMessage = none :=
  ⟨rfl, by decide, rfl⟩

/-- C7: every error caught at the handler boundary produces the header
`Cache-Control: no-cache, no-store, must-revalidate` and an error-SVG
body that contains the HTML-entity-encoded primary message followed by
the secondary hint. -/
theorem handler_error_response (e : AppError) :
    (handlerOnError e).cacheControl = "no-cache, no-store, must-revalidate".data ∧
    ∃ a b c,
      (handlerOnError e).body =
        a ++ encodeHTML (AppError.message e) ++ b ++
          jsStringOfOpt (AppError.secondaryMessage e) ++ c :=
  ⟨rfl, renderErrorPre, renderErrorMid, renderErrorPost, by
    simp [handlerOnError, renderError, List.append_assoc]⟩

/-- C10: a `CustomError` whose `type` is none of the four keys of
`SECONDARY_ERROR_MESSAGES` gets the `type` string itself as its
`secondaryMessage`; in particular the unrecognized-message GraphQL branch
of `fetchStats` throws a `CustomError` whose type — and hence secondary
hint — is the response's `statusText`. -/
theorem customError_unknown_type_secondary {α : Type} (m t : Str)
    (h1 : t ≠ "MAX_RETRY".data) (h2 : t ≠ "USER_NOT_FOUND".data)
    (h3 : t ≠ "GRAPHQL_ERROR".data) (h4 : t ≠ "WAKATIME_USER_NOT_FOUND".data)
    (repo : Str) (hr : repo ≠ []) (res : Res α) (errs : List ErrObj) (e0 : ErrObj)
    (he : res.data.errors = some errs) (h0 : errs.head? = some e0)
    (hnf : ¬ e0.type = some "NOT_FOUND".data) (hmsg : jsTruthy e0.message = true)
    (hst : res.statusText = t) :
    (AppError.custom m t).secondaryMessage = some t ∧
    ∃ msg, fetchStats repo res = .error (.custom msg t) ∧
      (AppError.custom msg t).secondaryMessage = some t := by
  have hsec : customSecondary t = t := by
    simp [customSecondary, SECONDARY_ERROR_MESSAGES, h1, h2, h3, h4]
  refine ⟨by simp [AppError.secondaryMessage, hsec], ?_⟩
  refine ⟨(wrapTextMultiline (e0.message.getD []) 90 1).headD [], ?_, ?_⟩
  · rw [← hst]
    simp [fetchStats, hr, he, h0, hnf, hmsg]
  · simp [AppError.secondaryMessage, hsec]

/-- Witness for C10: type `"OK"` (the `statusText` of a 200 response) is
not a known key, so it becomes the secondary hint. -/
theorem customError_unknown_type_secondary_witness :
    ("OK".data ≠ "MAX_RETRY".data) ∧
    (AppError.custom "x".data "OK".data).secondaryMessage = some "OK".data ∧
    ∃ msg,
      fetchStats "o/r".data
          (Res.mk (ResData.mk (some [ErrObj.mk (some "SOME".data) (some "boom".data)]) ())
            "OK".data) =
        .error (.custom msg "OK".data) ∧
      (AppError.custom msg "OK".data).secondaryMessage = some "OK".data := by
  have h := customError_unknown_type_secondary (α := Unit) "x".data "OK".data
    (by decide) (by decide) (by decide) (by decide) "o/r".data (by decide)
    (Res.mk (ResData.mk (some [ErrObj.mk (some "SOME".data) (some "boom".data)]) ())
      "OK".data)
    [ErrObj.mk (some "SOME".data) (some "boom".data)]
    (ErrObj.mk (some "SOME".data) (some "boom".data)) rfl rfl (by decide) (by decide) rfl
  exact ⟨by decide, h.1, h.2⟩

/-- C1 (counterexample): a `NOT_FOUND` error object with no `message`
yields the default message `"Could not fetch user."`, which is not the
`"Could not fetch repository."` the claim states. -/
theorem fetchStats_notFound_default_cex :
    fetchStats "o/r".data
        (Res.mk (ResData.mk (some [ErrObj.mk (some "NOT_FOUND".data) none]) ()) "OK".data) =
      .error (.custom "Could not fetch user.".data "USER_NOT_FOUND".data) ∧
    "Could not fetch user.".data ≠ "Could not fetch repository.".data := by
  exact ⟨by decide, by decide⟩

/-- C1 (amended): when `errors[0].type` is `"NOT_FOUND"`, `fetchStats`
fails with the `USER_NOT_FOUND`-typed `CustomError` whose message is the
API payload's `errors[0].message`, or, when that message is absent or
empty, the default `"Could not fetch user."`. -/
theorem fetchStats_notFound_classification {α : Type} (repo : Str) (hr : repo ≠ [])
    (res : Res α) (errs : List ErrObj) (e0 : ErrObj)
    (he : res.data.errors = some errs) (h0 : errs.head? = some e0)
    (ht : e0.type = some "NOT_FOUND".data) :
    fetchStats repo res =
      .error (.custom (jsOrStr e0.message "Could not fetch user.".data)
        "USER_NOT_FOUND".data) ∧
    (AppError.custom (jsOrStr e0.message "Could not fetch user.".data)
        "USER_NOT_FOUND".data).secondaryMessage =
      some "Make sure the provided username is not an organization".data := by
  constructor
  · simp [fetchStats, hr, he, h0, ht]
  · simp [AppError.secondaryMessage, customSecondary, SECONDARY_ERROR_MESSAGES]

/-- Witness for C1 (amended): a payload-supplied message is used as-is. -/
theorem fetchStats_notFound_classification_witness :
    fetchStats "o/r".data
        (Res.mk (ResData.mk (some [ErrObj.mk (some "NOT_FOUND".data) (some "gone".data)]) ())
          "OK".data) =
      .error (.custom
        (jsOrStr (some "gone".data) "Could not fetch user.".data) "USER_NOT_FOUND".data) ∧
    (AppError.custom (jsOrStr (some "gone".data) "Could not fetch user.".data)
        "USER_NOT_FOUND".data).secondaryMessage =
      some "Make sure the provided username is not an organization".data :=
  fetchStats_notFound_classification "o/r".data (by decide)
    (Res.mk (ResData.mk (some [ErrObj.mk (some "NOT_FOUND".data) (some "gone".data)]) ())
      "OK".data)
    [ErrObj.mk (some "NOT_FOUND".data) (some "gone".data)]
    (ErrObj.mk (some "NOT_FOUND".data) (some "gone".data)) rfl rfl rfl

/-- C2: when `errors` is present and `errors[0].type` is not
`"NOT_FOUND"`: a truthy `errors[0].message` yields a `CustomError` whose
message is the API message word-wrapped by `wrapTextMultiline` to width
90 and 1 line (first resulting line); otherwise the generic
`GRAPHQL_ERROR` default message is thrown. -/
theorem fetchStats_graphql_messages {α : Type} (repo : Str) (hr : repo ≠ [])
    (res : Res α) (errs : List ErrObj) (e0 : ErrObj)
    (he : res.data.errors = some errs) (h0 : errs.head? = some e0)
    (hnf : ¬ e0.type = some "NOT_FOUND".data) :
    (jsTruthy e0.message = true →
      fetchStats repo res =
        .error (.custom ((wrapTextMultiline (e0.message.getD []) 90 1).headD [])
          res.statusText)) ∧
    (jsTruthy e0.message = false →
      fetchStats repo res =
        .error (.custom
          "Something went wrong while trying to retrieve the stats data using the GraphQL API.".data
          "GRAPHQL_ERROR".data)) := by
  constructor <;> intro hmsg <;> simp [fetchStats, hr, he, h0, hnf, hmsg]

/-- Witness for C2: the message `"boom"` wraps to the single line
`"boom"`, which becomes the thrown message, with type `statusText`. -/
theorem fetchStats_graphql_messages_witness :
    jsTruthy (some "boom".data) = true ∧
    fetchStats "o/r".data
        (Res.mk (ResData.mk (some [ErrObj.mk (some "SOME".data) (some "boom".data)]) ())
          "OK".data) =
      .error (.custom ((wrapTextMultiline "boom".data 90 1).headD []) "OK".data) ∧
    (wrapTextMultiline "boom".data 90 1).headD [] = "boom".data :=
  ⟨by decide,
    (fetchStats_graphql_messages "o/r".data (by decide)
      (Res.mk (ResData.mk (some [ErrObj.mk (some "SOME".data) (some "boom".data)]) ())
        "OK".data)
      [ErrObj.mk (some "SOME".data) (some "boom".data)]
      (ErrObj.mk (some "SOME".data) (some "boom".data)) rfl rfl (by decide)).1 (by decide),
    by decide⟩

/-- C3 (counterexample): for the identifier `"foo/bar/baz"` the produced
`name` variable is `"bar"`, the segment between the first two
separators, not the entire remainder `"bar/baz"` after the first one. -/
theorem statsFetcher_split_cex :
    (statsFetcherVariables "foo/bar/baz".data).2 = some "bar".data ∧
    some "bar".data ≠ some "bar/baz".data := by
  exact ⟨by decide, by decide⟩

/-- C3 (amended): the request builder splits the identifier on every `/`
and destructures the first two components: `owner` is the text before the
first separator and `name` the text between the first and second
separator (or the remainder when there is a single separator); for every
identifier `owner/name` with both parts non-empty and separator-free,
both produced variables are the non-empty `owner` and `name`. -/
theorem statsFetcher_variables (owner name tail : Str)
    (ho : '/' ∉ owner) (hn : '/' ∉ name)
    (ho' : owner ≠ []) (hn' : name ≠ []) :
    statsFetcherVariables (owner ++ '/' :: name) = (some owner, some name) ∧
    statsFetcherVariables (owner ++ '/' :: name ++ '/' :: tail) = (some owner, some name) ∧
    owner ≠ [] ∧ name ≠ [] := by
  refine ⟨?_, ?_, ho', hn'⟩
  · have h1 : jsSplit '/' (owner ++ '/' :: name) = owner :: jsSplit '/' name :=
      jsSplit_append_sep '/' owner name ho
    have h2 : jsSplit '/' name = [name] := jsSplit_of_not_mem '/' name hn
    simp [statsFetcherVariables, h1, h2]
  · have h1 : jsSplit '/' (owner ++ '/' :: (name ++ '/' :: tail)) =
        owner :: jsSplit '/' (name ++ '/' :: tail) :=
      jsSplit_append_sep '/' owner (name ++ '/' :: tail) ho
    have h2 : jsSplit '/' (name ++ '/' :: tail) = name :: jsSplit '/' tail :=
      jsSplit_append_sep '/' name tail hn
    simp [statsFetcherVariables, h1, h2]

/-- Witness for C3 (amended) at `"foo/bar"` and `"foo/bar/baz"`. -/
theorem statsFetcher_variables_witness :
    ('/' ∉ "foo".data) ∧ ('/' ∉ "bar".data) ∧
    statsFetcherVariables ("foo".data ++ '/' :: "bar".data) =
      (some "foo".data, some "bar".data) ∧
    statsFetcherVariables ("foo".data ++ '/' :: "bar".data ++ '/' :: "baz".data) =
      (some "foo".data, some "bar".data) ∧
    "foo".data ≠ ([] : Str) ∧ "bar".data ≠ ([] : Str) := by
  have h := statsFetcher_variables "foo".data "bar".data "baz".data
    (by decide) (by decide) (by decide) (by decide)
  exact ⟨by decide, by decide, h.1, h.2.1, h.2.2⟩

/-- C6: when `errors` is absent `fetchStats` passes the response through
unchanged, but a present-and-empty `errors` array is truthy in
JavaScript, so the code dereferences `errors[0]` and crashes with a
`TypeError` instead of passing the payload through. -/
theorem fetchStats_passthrough_and_empty_errors {α : Type} (repo : Str)
    (hr : repo ≠ []) (res : Res α) :
    (res.data.errors = none → fetchStats repo res = .ok res) ∧
    (res.data.errors = some [] →
      fetchStats repo res =
        .error (.typeErrorCrash
          "Cannot read properties of undefined (reading 'type')".data)) := by
  constructor <;> intro he <;> simp [fetchStats, hr, he]

/-- Witness for C6: the pass-through case and the crashing empty-array
case at concrete inputs. -/
theorem fetchStats_passthrough_and_empty_errors_witness :
    ("o/r".data ≠ ([] : Str)) ∧
    fetchStats "o/r".data (Res.mk (ResData.mk none ()) "OK".data) =
      .ok (Res.mk (ResData.mk none ()) "OK".data) ∧
    fetchStats "o/r".data (Res.mk (ResData.mk (some []) ()) "OK".data) =
      .error (.typeErrorCrash
        "Cannot read properties of undefined (reading 'type')".data) :=
  ⟨by decide,
    (fetchStats_passthrough_and_empty_errors "o/r".data (by decide)
      (Res.mk (ResData.mk none ()) "OK".data)).1 rfl,
    (fetchStats_passthrough_and_empty_errors "o/r".data (by decide)
      (Res.mk (ResData.mk (some []) ()) "OK".data)).2 rfl⟩

/-- `wrapTextMultiline` with its intermediate `let`s spelled out. -/
theorem wrapTextMultiline_eq (text : Str) (w m : Nat) :
    wrapTextMultiline text w m =
      (if m < (wrappedLinesOf text w).length then
        (((wrappedLinesOf text w).map jsTrim).take m).set (m - 1)
          (((((wrappedLinesOf text w).map jsTrim).take m).getD (m - 1) []) ++ "...".data)
      else ((wrappedLinesOf text w).map jsTrim).take m).filter (fun l => !l.isEmpty) := rfl

/-- C8: for every text, width ≥ 1 and maxLines ≥ 1, `wrapTextMultiline`
returns at most `maxLines` lines, every returned line is non-empty, and
when the wrapped text exceeds `maxLines` lines the last returned line
ends with `"..."`. -/
theorem wrapTextMultiline_bounds (text : Str) (w m : Nat) (hw : 1 ≤ w) (hm : 1 ≤ m) :
    (wrapTextMultiline text w m).length ≤ m ∧
    (∀ l ∈ wrapTextMultiline text w m, l ≠ []) ∧
    (m < (wrappedLinesOf text w).length →
      ∃ p, (wrapTextMultiline text w m).getLast? = some (p ++ "...".data)) := by
  have hfil : ∀ L : List Str, (L.filter (fun l => !l.isEmpty)).length ≤ L.length :=
    fun L => List.length_filter_le _ _
  refine ⟨?_, ?_, ?_⟩
  · rw [wrapTextMultiline_eq]
    by_cases hx : m < (wrappedLinesOf text w).length
    · rw [if_pos hx]
      refine (hfil _).trans ?_
      rw [List.length_set, List.length_take]
      exact min_le_left _ _
    · rw [if_neg hx]
      refine (hfil _).trans ?_
      rw [List.length_take]
      exact min_le_left _ _
  · intro l hl
    rw [wrapTextMultiline_eq] at hl
    have hp := (List.mem_filter.mp hl).2
    intro hnil
    subst hnil
    simp at hp
  · intro hx
    rw [wrapTextMultiline_eq, if_pos hx]
    have hlen : (((wrappedLinesOf text w).map jsTrim).take m).length = m := by
      rw [List.length_take, List.length_map]
      exact Nat.min_eq_left (Nat.le_of_lt hx)
    refine ⟨(((wrappedLinesOf text w).map jsTrim).take m).getD (m - 1) [], ?_⟩
    refine filter_set_last _ _ ?_ (m - 1) ?_
    · intro hc
      have := congrArg List.length hc
      simp at this
    · rw [hlen]
      omega

/-- Witness for C8 at `text = "aa bb cc"`, `width = 2`, `maxLines = 2`:
the text wraps to three lines, so the result is the two lines
`["aa", "bb..."]`. -/
theorem wrapTextMultiline_bounds_witness :
    1 ≤ 2 ∧
    (wrapTextMultiline "aa bb cc".data 2 2).length ≤ 2 ∧
    (∀ l ∈ wrapTextMultiline "aa bb cc".data 2 2, l ≠ []) ∧
    (2 < (wrappedLinesOf "aa bb cc".data 2).length →
      ∃ p, (wrapTextMultiline "aa bb cc".data 2 2).getLast? = some (p ++ "...".data)) ∧
    2 < (wrappedLinesOf "aa bb cc".data 2).length ∧
    wrapTextMultiline "aa bb cc".data 2 2 = ["aa".data, "bb...".data] :=
  ⟨by decide,
    have h := wrapTextMultiline_bounds "aa bb cc".data 2 2 (by decide) (by decide)
    ⟨h.1, h.2.1, h.2.2, by decide, by decide⟩⟩
